import Mathlib

/-!
Shallow embedding of the recursive follow-up analysis engine of
`audi70r/diligent` (`main.go`), together with proofs of its specification
properties.

External effects (running a shell command, the OpenAI round trip) are
modelled by an explicit environment `Env` mapping the command string to an
execution outcome and the oracle prompt string to an oracle outcome; the
engine itself is translated function-by-function from `main.go`.
-/

namespace Diligent

/-- Constant `maxFollowups` from main.go: maximum number of follow-up analyses. -/
def maxFollowups : Nat := 5

/-- Constant `maxOutputCharacters` from main.go: maximum number of characters of
command output sent to the oracle. -/
def maxOutputCharacters : Nat := 3000

/-- Structure `Check` from main.go: a single command check. -/
structure Check where
  command : String
  prompt : String

/-- Structure `GPTResponse` from main.go: the structured JSON response expected from the
OpenAI API. Absent optional fields are the empty string (Go zero value). -/
structure GPTResponse where
  flagged : Bool
  description : String
  followUpPrompt : String
  followUpCommand : String
  alert : String

/-- Structure `AnalysisItem` from main.go: all information about one analysis step.
Recursive through `followUps`, hence an inductive rather than a structure. -/
inductive AnalysisItem where
  | mk (prompt command : String) (flagged : Bool)
       (analysisDescription alert rawOutput : String)
       (followUps : List AnalysisItem)

def AnalysisItem.prompt : AnalysisItem → String
  | .mk p _ _ _ _ _ _ => p

def AnalysisItem.command : AnalysisItem → String
  | .mk _ c _ _ _ _ _ => c

def AnalysisItem.flagged : AnalysisItem → Bool
  | .mk _ _ f _ _ _ _ => f

def AnalysisItem.analysisDescription : AnalysisItem → String
  | .mk _ _ _ d _ _ _ => d

def AnalysisItem.alert : AnalysisItem → String
  | .mk _ _ _ _ a _ _ => a

def AnalysisItem.rawOutput : AnalysisItem → String
  | .mk _ _ _ _ _ r _ => r

def AnalysisItem.followUps : AnalysisItem → List AnalysisItem
  | .mk _ _ _ _ _ _ fs => fs

/-- Outcome of running one shell command, the external effect behind
`executeCommand`: a timeout, a spawn/exit failure with the error text that Go
would render for `%w`, or success with the combined output. -/
inductive ExecOutcome where
  | timedOut
  | execError (msg : String)
  | ok (output : String)

/-- Outcome of one OpenAI round trip, the external effect behind `callOpenAI`:
a transport error (rendered error text), a response body that fails to parse as
`GPTResponse` (rendered unmarshal error text), or a parsed response. -/
inductive OracleOutcome where
  | transportError (msg : String)
  | parseError (msg : String)
  | ok (resp : GPTResponse)

/-- The external world: what each command prints and how the oracle answers
each prompt. Deterministic per string, which suffices for the properties here. -/
structure Env where
  exec : String → ExecOutcome
  oracle : String → OracleOutcome

/-- Function `executeCommand` from main.go: runs a shell command with a timeout and
returns its combined output together with the Go error (`none` = nil).
On the timeout branch and on the failure branch the returned output is `""`. -/
def executeCommand (env : Env) (command : String) : String × Option String :=
  match env.exec command with
  | .timedOut => ("", some "command execution timed out")
  | .execError msg =>
      ("", some ("failed to execute command: " ++ command ++ ", error: " ++ msg))
  | .ok output => (output, none)

/-- Function `truncateOutput` from main.go: truncates the output to a maximum number of
characters (`output[:maxLen]` when `len(output) > maxLen`). -/
def truncateOutput (output : String) (maxLen : Nat) : String :=
  if output.length > maxLen then ⟨output.data.take maxLen⟩ else output

/-- Function `callOpenAI` from main.go: returns the parsed `GPTResponse` or the Go error
text (`fmt.Errorf("failed to parse GPT response: %w", err)` on unmarshal
failure, the transport error unchanged otherwise). -/
def callOpenAI (env : Env) (prompt : String) : Except String GPTResponse :=
  match env.oracle prompt with
  | .transportError msg => .error msg
  | .parseError msg => .error ("failed to parse GPT response: " ++ msg)
  | .ok resp => .ok resp

/-- The `fullPrompt` built at main.go line 273:
`fmt.Sprintf("%s\n\nCommand output (truncated):\n%s", command, truncatedOutput)`.
Note the first verb argument is `command`, not `prompt`. -/
def contextPrompt (command truncatedOutput : String) : String :=
  command ++ "\n\nCommand output (truncated):\n" ++ truncatedOutput

/-- Modelled from the spec (§4.4 step 4): the context prompt as the spec's
claim words it, combining the original check prompt with the truncated
output. Used only to compare against `contextPrompt`, which is the code's. -/
def specContextPrompt (prompt truncatedOutput : String) : String :=
  prompt ++ "\n\nCommand output (truncated):\n" ++ truncatedOutput

/-- Function `analyze` from main.go: handles the analysis of a command and any
follow-ups it generates. Returns the item together with the Go error value.
The follow-up `for` loop of main.go lines 293-318 executes its body at most
once (every path through the body ends in `break`), so it is rendered as a
single gated step: gate = `item.Flagged && FollowUpCommand != "" &&
FollowUpPrompt != "" && currentDepth < maxFollowups`, checked before
`currentDepth++` and the recursive call at `depth + 1`. -/
def analyze (env : Env) (prompt command : String) (depth : Nat) :
    AnalysisItem × Option String :=
  -- if command == "" { ... return item, nil }
  if command = "" then
    (.mk prompt command false "No command provided" "" "" [], none)
  else
    match executeCommand env command with
    | (commandOutput, some e) =>
        -- Command execution error path: RawOutput = commandOutput (= "")
        (.mk prompt command false ("Command execution error: " ++ e) ""
          commandOutput [], none)
    | (commandOutput, none) =>
        let truncatedOutput := truncateOutput commandOutput maxOutputCharacters
        let fullPrompt := contextPrompt command truncatedOutput
        match callOpenAI env fullPrompt with
        | .error e =>
            (.mk prompt command false ("OpenAI API error: " ++ e) ""
              truncatedOutput [], none)
        | .ok response =>
            if h : response.flagged = true ∧ response.followUpCommand ≠ "" ∧
                response.followUpPrompt ≠ "" ∧ depth < maxFollowups then
              match analyze env response.followUpPrompt
                  response.followUpCommand (depth + 1) with
              | (_, some _) =>
                  -- if err != nil { break } — no append
                  (.mk prompt command response.flagged response.description
                    response.alert truncatedOutput [], none)
              | (followupItem, none) =>
                  -- item.FollowUps = append(item.FollowUps, followupItem)
                  (.mk prompt command response.flagged response.description
                    response.alert truncatedOutput [followupItem], none)
            else
              (.mk prompt command response.flagged response.description
                response.alert truncatedOutput [], none)
termination_by maxFollowups - depth
decreasing_by
  have h' := h.2.2.2
  omega

/-- The `AnalysisItem` component of `analyze` (the Go error component being
`nil` on every path). -/
def analyzeItem (env : Env) (prompt command : String) (depth : Nat) :
    AnalysisItem :=
  (analyze env prompt command depth).1

/-- The per-check loop of `main` (main.go lines 344-352): one `analyze` call at
depth 0 per catalog entry, skipping (`continue`) an entry whose analyze call
returned a non-nil error, appending the item otherwise. -/
def runChecks (env : Env) (cs : List Check) : List AnalysisItem :=
  cs.foldl
    (fun results chk =>
      match analyze env chk.prompt chk.command 0 with
      | (_, some _) => results
      | (item, none) => results ++ [item])
    []

mutual

/-- Height of an `AnalysisItem` tree counted in edges: a leaf has height 0,
a node with children has one more than its tallest child. -/
def AnalysisItem.height : AnalysisItem → Nat
  | .mk _ _ _ _ _ _ fs => heightList fs

def heightList : List AnalysisItem → Nat
  | [] => 0
  | f :: fs => max (f.height + 1) (heightList fs)

end

mutual

/-- Predicate `allNodes p t` holds when the predicate `p` holds at every node of the
`AnalysisItem` tree `t`, the root included. -/
def allNodes (p : AnalysisItem → Bool) : AnalysisItem → Bool
  | .mk a b c d e f fs => p (.mk a b c d e f fs) && allNodesList p fs

def allNodesList (p : AnalysisItem → Bool) : List AnalysisItem → Bool
  | [] => true
  | f :: fs => allNodes p f && allNodesList p fs

end

/-- The continuation of `analyze` after the oracle call (main.go lines 276-318),
as a function of the oracle's answer: used to state at which prompt string the
oracle is consulted. -/
def afterOracle (env : Env) (prompt command : String) (depth : Nat)
    (truncatedOutput : String) (res : Except String GPTResponse) :
    AnalysisItem × Option String :=
  match res with
  | .error e =>
      (.mk prompt command false ("OpenAI API error: " ++ e) ""
        truncatedOutput [], none)
  | .ok response =>
      if response.flagged = true ∧ response.followUpCommand ≠ "" ∧
          response.followUpPrompt ≠ "" ∧ depth < maxFollowups then
        match analyze env response.followUpPrompt
            response.followUpCommand (depth + 1) with
        | (_, some _) =>
            (.mk prompt command response.flagged response.description
              response.alert truncatedOutput [], none)
        | (followupItem, none) =>
            (.mk prompt command response.flagged response.description
              response.alert truncatedOutput [followupItem], none)
      else
        (.mk prompt command response.flagged response.description
          response.alert truncatedOutput [], none)

/-! ### Helper lemmas -/

/-- The Go error component of `analyze` is `nil` on every path. -/
theorem analyze_err_none (env : Env) (p c : String) (d : Nat) :
    (analyze env p c d).2 = none := by
  rw [analyze]
  dsimp only
  split
  · rfl
  · split
    · rfl
    · split
      · rfl
      · split
        · split <;> rfl
        · rfl

/-- Function `analyze` as a pair is its item paired with `none`. -/
theorem analyze_pair_eq (env : Env) (p c : String) (d : Nat) :
    analyze env p c d = (analyzeItem env p c d, none) := by
  have h := analyze_err_none env p c d
  rw [analyzeItem]
  cases hh : analyze env p c d with
  | mk a b => rw [hh] at h; simp at h; simp [h]

/-- Empty-command branch of `analyze` (main.go lines 255-260). -/
theorem analyze_empty_cmd (env : Env) (p : String) (d : Nat) :
    analyze env p "" d = (.mk p "" false "No command provided" "" "" [], none) := by
  rw [analyze]
  simp

/-- Timeout branch of `analyze` (main.go lines 262-269, 229-231):
`executeCommand` returns no partial output, and the item records the rendered
error with `flagged = false`. -/
theorem analyze_timeout_eq (env : Env) (p c : String) (d : Nat)
    (hc : c ≠ "") (h : env.exec c = .timedOut) :
    analyze env p c d =
      (.mk p c false "Command execution error: command execution timed out"
        "" "" [], none) := by
  rw [analyze]
  simp [hc, executeCommand, h]

/-- Exec-failure branch of `analyze` (main.go lines 262-269, 233-235). -/
theorem analyze_execError_eq (env : Env) (p c : String) (d : Nat) (m : String)
    (hc : c ≠ "") (h : env.exec c = .execError m) :
    analyze env p c d =
      (.mk p c false
        ("Command execution error: " ++
          ("failed to execute command: " ++ c ++ ", error: " ++ m))
        "" "" [], none) := by
  rw [analyze]
  simp [hc, executeCommand, h]

/-- On successful execution, `analyze` continues as `afterOracle` applied to
the oracle's answer at `contextPrompt command truncatedOutput`: the oracle is
consulted exactly once, at the command-text-based prompt. -/
theorem analyze_success_eq_afterOracle (env : Env) (p c : String) (d : Nat)
    (out : String) (hc : c ≠ "") (hex : env.exec c = .ok out) :
    analyze env p c d =
      afterOracle env p c d (truncateOutput out maxOutputCharacters)
        (callOpenAI env
          (contextPrompt c (truncateOutput out maxOutputCharacters))) := by
  rw [analyze]
  have hrun : executeCommand env c = (out, none) := by
    simp [executeCommand, hex]
  simp only [if_neg hc, hrun, afterOracle]
  cases callOpenAI env (contextPrompt c (truncateOutput out maxOutputCharacters)) with
  | error e => rfl
  | ok response =>
      show (dite _ _ _ : AnalysisItem × Option String) = ite _ _ _
      by_cases hg : response.flagged = true ∧ response.followUpCommand ≠ "" ∧
        response.followUpPrompt ≠ "" ∧ d < maxFollowups
      · rw [dif_pos hg, if_pos hg]
      · rw [dif_neg hg, if_neg hg]

/-- Oracle-failure branch of `analyze` (main.go lines 276-282). -/
theorem analyze_oracleError_eq (env : Env) (p c : String) (d : Nat)
    (out e : String) (hc : c ≠ "") (hex : env.exec c = .ok out)
    (hor : callOpenAI env
        (contextPrompt c (truncateOutput out maxOutputCharacters)) =
      .error e) :
    analyze env p c d =
      (.mk p c false ("OpenAI API error: " ++ e) ""
        (truncateOutput out maxOutputCharacters) [], none) := by
  rw [analyze_success_eq_afterOracle env p c d out hc hex, hor, afterOracle]

/-- Oracle-success branch of `analyze` when the recursion gate fails
(main.go lines 284-293 with the loop condition false). -/
theorem analyze_ok_nogate_eq (env : Env) (p c : String) (d : Nat)
    (out : String) (r : GPTResponse) (hc : c ≠ "") (hex : env.exec c = .ok out)
    (hor : callOpenAI env
        (contextPrompt c (truncateOutput out maxOutputCharacters)) = .ok r)
    (hng : ¬(r.flagged = true ∧ r.followUpCommand ≠ "" ∧
      r.followUpPrompt ≠ "" ∧ d < maxFollowups)) :
    analyze env p c d =
      (.mk p c r.flagged r.description r.alert
        (truncateOutput out maxOutputCharacters) [], none) := by
  rw [analyze_success_eq_afterOracle env p c d out hc hex, hor, afterOracle]
  simp only [if_neg hng]

/-- Oracle-success branch of `analyze` when the recursion gate holds
(main.go lines 293-318): exactly one recursive call at `d + 1`, whose item is
appended as the single follow-up. -/
theorem analyze_ok_gate_eq (env : Env) (p c : String) (d : Nat)
    (out : String) (r : GPTResponse) (hc : c ≠ "") (hex : env.exec c = .ok out)
    (hor : callOpenAI env
        (contextPrompt c (truncateOutput out maxOutputCharacters)) = .ok r)
    (hg : r.flagged = true ∧ r.followUpCommand ≠ "" ∧
      r.followUpPrompt ≠ "" ∧ d < maxFollowups) :
    analyze env p c d =
      (.mk p c r.flagged r.description r.alert
        (truncateOutput out maxOutputCharacters)
        [analyzeItem env r.followUpPrompt r.followUpCommand (d + 1)], none) := by
  rw [analyze_success_eq_afterOracle env p c d out hc hex, hor, afterOracle]
  rw [if_pos hg, analyze_pair_eq]

/-- At depths `maxFollowups` and beyond the recursion gate is closed, so the
returned item has no follow-ups on any path. -/
theorem analyze_followUps_nil_of_max (env : Env) (p c : String) (d : Nat)
    (hd : maxFollowups ≤ d) :
    (analyzeItem env p c d).followUps = [] := by
  rw [analyzeItem, analyze]
  dsimp only
  split
  · rfl
  · split
    · rfl
    · split
      · rfl
      · split
        · omega
        · rfl

/-- Length: `truncateOutput` returns a string of length `min (length s) maxLen`. -/
theorem truncateOutput_length (s : String) (n : Nat) :
    (truncateOutput s n).length = min s.length n := by
  unfold truncateOutput
  split
  · next h =>
      have h1 : (String.mk (s.data.take n)).length = (s.data.take n).length := rfl
      have h2 : s.data.length = s.length := rfl
      rw [h1, List.length_take, Nat.min_comm]
      rw [h2]
  · next h =>
      have h2 : s.length ≤ n := Nat.le_of_not_lt h
      rw [Nat.min_eq_left h2]

/-- Order: `truncateOutput` returns a prefix of its input (at the level of the
underlying character list). -/
theorem truncateOutput_data_take (s : String) (n : Nat) :
    (truncateOutput s n).data = s.data.take (min s.length n) := by
  unfold truncateOutput
  split
  · next h =>
      show s.data.take n = _
      rw [Nat.min_eq_right (Nat.le_of_lt h)]
  · next h =>
      have h2 : s.length ≤ n := Nat.le_of_not_lt h
      rw [Nat.min_eq_left h2]
      show s.data = s.data.take s.data.length
      rw [List.take_length]

/-- Identity: `truncateOutput` returns its input unchanged when it is short enough. -/
theorem truncateOutput_eq_of_le (s : String) (n : Nat) (h : s.length ≤ n) :
    truncateOutput s n = s := by
  unfold truncateOutput
  rw [if_neg]
  omega

theorem height_mk (p c : String) (f : Bool) (dsc a r : String)
    (fs : List AnalysisItem) :
    (AnalysisItem.mk p c f dsc a r fs).height = heightList fs := by
  rw [AnalysisItem.height]

theorem heightList_nil : heightList [] = 0 := by
  rw [heightList]

theorem heightList_cons (f : AnalysisItem) (fs : List AnalysisItem) :
    heightList (f :: fs) = max (f.height + 1) (heightList fs) := by
  rw [heightList]

theorem allNodes_mk (q : AnalysisItem → Bool) (p c : String) (f : Bool)
    (dsc a r : String) (fs : List AnalysisItem) :
    allNodes q (.mk p c f dsc a r fs) =
      (q (.mk p c f dsc a r fs) && allNodesList q fs) := by
  rw [allNodes]

theorem allNodesList_nil (q : AnalysisItem → Bool) :
    allNodesList q [] = true := by
  rw [allNodesList]

theorem allNodesList_cons (q : AnalysisItem → Bool) (f : AnalysisItem)
    (fs : List AnalysisItem) :
    allNodesList q (f :: fs) = (allNodes q f && allNodesList q fs) := by
  rw [allNodesList]

/-- In every error outcome of `executeCommand` the returned output is `""`. -/
theorem executeCommand_err_output (env : Env) (c out e : String)
    (h : executeCommand env c = (out, some e)) : out = "" := by
  unfold executeCommand at h
  cases henv : env.exec c <;> rw [henv] at h <;> simp at h
  · exact h.1.symm
  · exact h.1.symm

/-- Per-node property asserted along the recursion of `analyze`: bounded
height, at most one follow-up per node, bounded `rawOutput` at every node. -/
def TreeInvariants (env : Env) (p c : String) (d : Nat) : Prop :=
  (analyzeItem env p c d).height ≤ maxFollowups - d ∧
  allNodes (fun it => decide (it.followUps.length ≤ 1))
    (analyzeItem env p c d) = true ∧
  allNodes (fun it => decide (it.rawOutput.length ≤ maxOutputCharacters))
    (analyzeItem env p c d) = true

/-- The invariants hold of any single node with no follow-ups and a short
enough `rawOutput`. -/
theorem treeInvariants_leaf (env : Env) (p c : String) (d : Nat)
    (pr cm : String) (fl : Bool) (dsc al ro : String)
    (hi : analyzeItem env p c d = .mk pr cm fl dsc al ro [])
    (hro : ro.length ≤ maxOutputCharacters) :
    TreeInvariants env p c d := by
  unfold TreeInvariants
  rw [hi]
  refine ⟨?_, ?_, ?_⟩
  · rw [height_mk, heightList_nil]; omega
  · rw [allNodes_mk, allNodesList_nil]; simp [AnalysisItem.followUps]
  · rw [allNodes_mk, allNodesList_nil]; simp [AnalysisItem.rawOutput, hro]

/-- Master induction over the recursion of `analyze`, on the decreasing
measure `maxFollowups - depth`. -/
theorem analyze_tree_invariants_aux (env : Env) :
    ∀ (n : Nat) (p c : String) (d : Nat), maxFollowups - d = n →
      TreeInvariants env p c d := by
  intro n
  induction n using Nat.strong_induction_on with
  | _ n ih =>
    intro p c d hn
    by_cases hc : c = ""
    · subst hc
      exact treeInvariants_leaf env p "" d _ _ _ _ _ _
        (by rw [analyzeItem, analyze_empty_cmd]) (by simp)
    · cases hexec : env.exec c with
      | timedOut =>
          exact treeInvariants_leaf env p c d _ _ _ _ _ _
            (by rw [analyzeItem, analyze_timeout_eq env p c d hc hexec]) (by simp)
      | execError m =>
          exact treeInvariants_leaf env p c d _ _ _ _ _ _
            (by rw [analyzeItem, analyze_execError_eq env p c d m hc hexec])
            (by simp)
      | ok out =>
          have htr : (truncateOutput out maxOutputCharacters).length ≤
              maxOutputCharacters := by
            have := truncateOutput_length out maxOutputCharacters
            omega
          cases horc : env.oracle
              (contextPrompt c (truncateOutput out maxOutputCharacters)) with
          | transportError m =>
              exact treeInvariants_leaf env p c d _ _ _ _ _ _
                (by rw [analyzeItem,
                  analyze_oracleError_eq env p c d out m hc hexec
                    (by rw [callOpenAI, horc])]) htr
          | parseError m =>
              exact treeInvariants_leaf env p c d _ _ _ _ _ _
                (by rw [analyzeItem,
                  analyze_oracleError_eq env p c d out
                    ("failed to parse GPT response: " ++ m) hc hexec
                    (by rw [callOpenAI, horc])]) htr
          | ok r =>
              have hor : callOpenAI env
                  (contextPrompt c (truncateOutput out maxOutputCharacters)) =
                  .ok r := by rw [callOpenAI, horc]
              by_cases hg : r.flagged = true ∧ r.followUpCommand ≠ "" ∧
                  r.followUpPrompt ≠ "" ∧ d < maxFollowups
              · have hd : d < maxFollowups := hg.2.2.2
                have hchild : TreeInvariants env r.followUpPrompt
                    r.followUpCommand (d + 1) :=
                  ih (maxFollowups - (d + 1)) (by omega)
                    r.followUpPrompt r.followUpCommand (d + 1) rfl
                unfold TreeInvariants
                rw [analyzeItem, analyze_ok_gate_eq env p c d out r hc hexec hor hg]
                unfold TreeInvariants at hchild
                refine ⟨?_, ?_, ?_⟩
                · rw [height_mk, heightList_cons, heightList_nil]
                  have h1 := hchild.1
                  simp only [Nat.max_def]
                  split <;> omega
                · rw [allNodes_mk, allNodesList_cons, allNodesList_nil]
                  simp [AnalysisItem.followUps]
                  exact hchild.2.1
                · rw [allNodes_mk, allNodesList_cons, allNodesList_nil]
                  simp [AnalysisItem.rawOutput]
                  exact ⟨htr, hchild.2.2⟩
              · exact treeInvariants_leaf env p c d _ _ _ _ _ _
                  (by rw [analyzeItem,
                    analyze_ok_nogate_eq env p c d out r hc hexec hor hg]) htr

/-- The tree invariants hold of every `analyze` result. -/
theorem analyze_tree_invariants (env : Env) (p c : String) (d : Nat) :
    TreeInvariants env p c d :=
  analyze_tree_invariants_aux env (maxFollowups - d) p c d rfl

/-- Because `analyze` never returns an error, the driver loop never skips a
check: the report holds one root item per catalog entry, in catalog order. -/
theorem runChecks_eq_map (env : Env) (cs : List Check) :
    runChecks env cs =
      cs.map (fun chk => analyzeItem env chk.prompt chk.command 0) := by
  have key : ∀ (l : List Check) (acc : List AnalysisItem),
      l.foldl
        (fun results chk =>
          match analyze env chk.prompt chk.command 0 with
          | (_, some _) => results
          | (item, none) => results ++ [item]) acc =
      acc ++ l.map (fun chk => analyzeItem env chk.prompt chk.command 0) := by
    intro l
    induction l with
    | nil => intro acc; simp
    | cons chk l ihl =>
        intro acc
        simp only [List.foldl_cons, List.map_cons]
        rw [analyze_pair_eq, ihl]
        simp
  rw [runChecks, key]
  simp

/-! ### Concrete environments used as witnesses -/

/-- Environment whose oracle echoes the prompt string it receives back in the
`description` field: makes visible which prompt the engine sent. -/
def envEcho : Env :=
  ⟨fun _ => .ok "out", fun s => .ok ⟨false, s, "", "", ""⟩⟩

/-- Environment that always flags and always proposes a follow-up. -/
def envFlagAll : Env :=
  ⟨fun _ => .ok "out", fun _ => .ok ⟨true, "susp", "deeper", "echo f", ""⟩⟩

/-- Environment in which every command times out; its oracle answers anyway,
so oracle-independence of timeout results is observable. -/
def envTimeoutW : Env :=
  ⟨fun _ => .timedOut, fun _ => .ok ⟨false, "clear", "", "", ""⟩⟩

/-! ### Claim theorems -/

/-- C1 (counterexample): the claim that the oracle context combines the
original check prompt with the truncated output is false on the code. With an
oracle that echoes back the prompt string it receives, running
`analyze envEcho "p" "c" 0` yields a description equal to the command-based
`contextPrompt "c" "out"` and different from the spec-claimed
`specContextPrompt "p" "out"`: the check prompt `"p"` is never sent. -/
theorem analyze_context_not_check_prompt_cex :
    (analyzeItem envEcho "p" "c" 0).analysisDescription =
      contextPrompt "c" "out" ∧
    (analyzeItem envEcho "p" "c" 0).analysisDescription ≠
      specContextPrompt "p" "out" := by
  have htr : truncateOutput "out" maxOutputCharacters = "out" :=
    truncateOutput_eq_of_le _ _ (by decide)
  have hor : callOpenAI envEcho
      (contextPrompt "c" (truncateOutput "out" maxOutputCharacters)) =
      .ok ⟨false, contextPrompt "c" (truncateOutput "out" maxOutputCharacters),
        "", "", ""⟩ := rfl
  have h := analyze_ok_nogate_eq envEcho "p" "c" 0 "out"
    ⟨false, contextPrompt "c" (truncateOutput "out" maxOutputCharacters),
      "", "", ""⟩
    (by decide) rfl hor (by simp)
  constructor
  · rw [analyzeItem, h, htr]
    rfl
  · rw [analyzeItem, h, htr]
    show contextPrompt "c" "out" ≠ specContextPrompt "p" "out"
    decide

/-- C1 (amended): for every invocation of `analyze` that reaches the oracle
call (command non-empty, execution succeeded), the context prompt sent to the
oracle combines the raw command text — not the check prompt — with the
truncated command output: the run continues exactly as `afterOracle` applied
to the oracle's verdict at `contextPrompt command truncatedOutput`. -/
theorem analyze_context_uses_command_text (env : Env) (p c : String)
    (d : Nat) (out : String) (hc : c ≠ "") (hex : env.exec c = .ok out) :
    analyze env p c d =
      afterOracle env p c d (truncateOutput out maxOutputCharacters)
        (callOpenAI env
          (contextPrompt c (truncateOutput out maxOutputCharacters))) :=
  analyze_success_eq_afterOracle env p c d out hc hex

/-- C1 (witness): the amended theorem applied at a concrete environment. -/
theorem analyze_context_uses_command_text_witness :
    ("c" ≠ "") ∧
    analyze envEcho "p" "c" 0 =
      afterOracle envEcho "p" "c" 0 (truncateOutput "out" maxOutputCharacters)
        (callOpenAI envEcho
          (contextPrompt "c" (truncateOutput "out" maxOutputCharacters))) :=
  ⟨by decide,
    analyze_context_uses_command_text envEcho "p" "c" 0 "out" (by decide) rfl⟩

/-- C2: for every environment, prompt, command, and starting depth
`d ≤ maxFollowups`, `analyze` terminates (it is a total Lean function, defined
by well-founded recursion on `maxFollowups - depth`) and the returned tree of
`AnalysisItem`s has depth at most `maxFollowups` (5) measured from the root
call's depth: root depth `d` plus tree height never exceeds `maxFollowups`. -/
theorem analyze_depth_bounded (env : Env) (p c : String) (d : Nat)
    (hd : d ≤ maxFollowups) :
    d + (analyzeItem env p c d).height ≤ maxFollowups := by
  have h := (analyze_tree_invariants env p c d).1
  omega

/-- C2 (witness): the depth bound at a concrete flag-everything environment
and depth 0. -/
theorem analyze_depth_bounded_witness :
    (0 : Nat) ≤ maxFollowups ∧
    0 + (analyzeItem envFlagAll "check" "echo ok" 0).height ≤ maxFollowups :=
  ⟨by decide, analyze_depth_bounded envFlagAll "check" "echo ok" 0 (by decide)⟩

/-- C3: `analyze` is total with respect to errors — its Go error component is
`nil` on every input, so the run driver skips nothing and the report holds
exactly one root item per catalog check in catalog order; moreover each of the
failure kinds (exec timeout, exec failure, oracle failure) is absorbed into a
returned item with `flagged = false` and the error text in its description. -/
theorem analyze_total_report_complete :
    (∀ (env : Env) (p c : String) (d : Nat), (analyze env p c d).2 = none) ∧
    (∀ (env : Env) (cs : List Check),
      runChecks env cs =
        cs.map (fun chk => analyzeItem env chk.prompt chk.command 0)) ∧
    (∀ (env : Env) (p c : String) (d : Nat), c ≠ "" →
      env.exec c = .timedOut →
        analyzeItem env p c d =
          .mk p c false "Command execution error: command execution timed out"
            "" "" []) ∧
    (∀ (env : Env) (p c : String) (d : Nat) (m : String), c ≠ "" →
      env.exec c = .execError m →
        analyzeItem env p c d =
          .mk p c false
            ("Command execution error: " ++
              ("failed to execute command: " ++ c ++ ", error: " ++ m))
            "" "" []) ∧
    (∀ (env : Env) (p c : String) (d : Nat) (out e : String), c ≠ "" →
      env.exec c = .ok out →
        callOpenAI env
            (contextPrompt c (truncateOutput out maxOutputCharacters)) =
          .error e →
        analyzeItem env p c d =
          .mk p c false ("OpenAI API error: " ++ e) ""
            (truncateOutput out maxOutputCharacters) []) := by
  refine ⟨analyze_err_none, runChecks_eq_map, ?_, ?_, ?_⟩
  · intro env p c d hc h
    rw [analyzeItem, analyze_timeout_eq env p c d hc h]
  · intro env p c d m hc h
    rw [analyzeItem, analyze_execError_eq env p c d m hc h]
  · intro env p c d out e hc hex hor
    rw [analyzeItem, analyze_oracleError_eq env p c d out e hc hex hor]

/-- C3 (witness): the timeout-absorption conjunct at a concrete environment. -/
theorem analyze_total_report_complete_witness :
    ("ls" ≠ "") ∧
    analyzeItem envTimeoutW "p" "ls" 0 =
      .mk "p" "ls" false "Command execution error: command execution timed out"
        "" "" [] :=
  ⟨by decide,
    analyze_total_report_complete.2.2.1 envTimeoutW "p" "ls" 0 (by decide) rfl⟩

/-- C4: every node of every tree returned by `analyze` has a `follow_ups`
sequence of length at most 1: at most one oracle-suggested follow-up is chased
per level and no sibling follow-ups are ever explored at the same depth. -/
theorem analyze_at_most_one_followup (env : Env) (p c : String) (d : Nat) :
    allNodes (fun it => decide (it.followUps.length ≤ 1))
      (analyzeItem env p c d) = true :=
  (analyze_tree_invariants env p c d).2.1

/-- C5: invoked at depth `maxFollowups - 1` (= 4) with a flagged verdict
carrying both follow-up fields, `analyze` makes exactly one further recursive
call (at depth `maxFollowups`), recorded as the single entry of `follow_ups`,
and that child performs no recursion of its own: its own `follow_ups` is empty
whatever its verdict. -/
theorem analyze_depth_limit_single_followup (env : Env) (p c out : String)
    (r : GPTResponse) (hc : c ≠ "") (hex : env.exec c = .ok out)
    (hor : callOpenAI env
        (contextPrompt c (truncateOutput out maxOutputCharacters)) = .ok r)
    (hf : r.flagged = true) (hcmd : r.followUpCommand ≠ "")
    (hp : r.followUpPrompt ≠ "") :
    (analyzeItem env p c (maxFollowups - 1)).followUps =
      [analyzeItem env r.followUpPrompt r.followUpCommand maxFollowups] ∧
    (analyzeItem env r.followUpPrompt r.followUpCommand
      maxFollowups).followUps = [] := by
  constructor
  · rw [analyzeItem, analyze_ok_gate_eq env p c (maxFollowups - 1) out r hc hex
      hor ⟨hf, hcmd, hp, by decide⟩]
    rfl
  · exact analyze_followUps_nil_of_max env r.followUpPrompt r.followUpCommand
      maxFollowups (le_refl _)

/-- C5 (witness): the depth-limit behavior at a concrete environment whose
oracle always flags and always proposes the follow-up `("deeper", "echo f")`. -/
theorem analyze_depth_limit_single_followup_witness :
    ("echo ok" ≠ "") ∧
    (analyzeItem envFlagAll "check" "echo ok" (maxFollowups - 1)).followUps =
      [analyzeItem envFlagAll "deeper" "echo f" maxFollowups] ∧
    (analyzeItem envFlagAll "deeper" "echo f" maxFollowups).followUps = [] :=
  ⟨by decide,
    analyze_depth_limit_single_followup envFlagAll "check" "echo ok" "out"
      ⟨true, "susp", "deeper", "echo f", ""⟩
      (by decide) rfl rfl rfl (by decide) (by decide)⟩

/-- C6: if command execution times out, the returned item has
`flagged = false`, its description is the timeout error text, `raw_output` is
empty (no partial output retained), and the oracle is never invoked: the
result is unchanged under any replacement of the oracle. -/
theorem analyze_timeout_no_oracle (env : Env) (p c : String) (d : Nat)
    (hc : c ≠ "") (h : env.exec c = .timedOut) :
    analyzeItem env p c d =
      .mk p c false "Command execution error: command execution timed out"
        "" "" [] ∧
    (∀ oracle2 : String → OracleOutcome,
      analyze ⟨env.exec, oracle2⟩ p c d = analyze env p c d) := by
  constructor
  · rw [analyzeItem, analyze_timeout_eq env p c d hc h]
  · intro o2
    rw [analyze_timeout_eq env p c d hc h,
      analyze_timeout_eq ⟨env.exec, o2⟩ p c d hc h]

/-- C6 (witness): the timeout path at a concrete environment, including
oracle-independence. -/
theorem analyze_timeout_no_oracle_witness :
    ("ls" ≠ "") ∧
    (analyzeItem envTimeoutW "p" "ls" 2 =
      .mk "p" "ls" false "Command execution error: command execution timed out"
        "" "" [] ∧
    (∀ oracle2 : String → OracleOutcome,
      analyze ⟨envTimeoutW.exec, oracle2⟩ "p" "ls" 2 =
        analyze envTimeoutW "p" "ls" 2)) :=
  ⟨by decide, analyze_timeout_no_oracle envTimeoutW "p" "ls" 2 (by decide) rfl⟩

/-- C7: on an empty command, `analyze` returns a `flagged = false` leaf with
the note "No command provided", empty `raw_output` and empty `follow_ups`,
for every prompt and depth — and the result does not depend on the environment
at all, i.e. no command is executed and the oracle is not called. -/
theorem analyze_empty_command_leaf (env : Env) (p : String) (d : Nat) :
    analyzeItem env p "" d = .mk p "" false "No command provided" "" "" [] ∧
    (analyzeItem env p "" d).flagged = false ∧
    (analyzeItem env p "" d).rawOutput = "" ∧
    (analyzeItem env p "" d).followUps = [] ∧
    (∀ env2 : Env, analyzeItem env2 p "" d = analyzeItem env p "" d) := by
  have h : ∀ env0 : Env,
      analyzeItem env0 p "" d =
        .mk p "" false "No command provided" "" "" [] := by
    intro env0
    rw [analyzeItem, analyze_empty_cmd]
  refine ⟨h env, ?_, ?_, ?_, ?_⟩
  · rw [h env]; rfl
  · rw [h env]; rfl
  · rw [h env]; rfl
  · intro env2; rw [h env, h env2]

/-- C8: for every `maxChars ≥ 0` (a `Nat` here) and string `s`,
`truncateOutput s maxChars` has length `min (length s) maxChars`, is a prefix
of `s` (as a sequence of characters), and equals `s` whenever
`length s ≤ maxChars`. -/
theorem truncateOutput_spec (s : String) (n : Nat) :
    (truncateOutput s n).length = min s.length n ∧
    (truncateOutput s n).data <+: s.data ∧
    (s.length ≤ n → truncateOutput s n = s) := by
  refine ⟨truncateOutput_length s n, ?_, truncateOutput_eq_of_le s n⟩
  rw [truncateOutput_data_take]
  exact List.take_prefix _ _

/-- C8 (witness): the unchanged case of `truncateOutput` at a concrete
short string. -/
theorem truncateOutput_spec_witness :
    ("ab".length ≤ 5) ∧ truncateOutput "ab" 5 = "ab" :=
  ⟨by decide, (truncateOutput_spec "ab" 5).2.2 (by decide)⟩

/-- C9: every node of every tree returned by `analyze` has a `raw_output` of
length at most `maxOutputCharacters` (3000): the success and oracle-error
paths attach the truncated output and the exec-error paths attach `""`. -/
theorem analyze_rawOutput_bounded (env : Env) (p c : String) (d : Nat) :
    allNodes (fun it => decide (it.rawOutput.length ≤ maxOutputCharacters))
      (analyzeItem env p c d) = true :=
  (analyze_tree_invariants env p c d).2.2

/-- C10: on every path (empty command, exec failure, oracle failure, clear or
flagged verdict), the item returned by `analyze prompt command depth` carries
`Prompt = prompt` and `Command = command`. -/
theorem analyze_preserves_prompt_command (env : Env) (p c : String)
    (d : Nat) :
    (analyzeItem env p c d).prompt = p ∧
    (analyzeItem env p c d).command = c := by
  rw [analyzeItem, analyze]
  dsimp only
  split
  · exact ⟨rfl, rfl⟩
  · split
    · exact ⟨rfl, rfl⟩
    · split
      · exact ⟨rfl, rfl⟩
      · split
        · split <;> exact ⟨rfl, rfl⟩
        · exact ⟨rfl, rfl⟩

end Diligent
